import Mathlib

/-!
Shallow embedding of the configuration front end in
`source-builder/sb/options.py` (class `command_line`, functions `load` and
`run`), together with theorems checking the specification's claims.

Machine integers are `Int`/`Nat`; Python floats appearing in the jobs
computation are modelled as `ℚ` (the values involved are exact decimals).
Fallible code returns `Except Err _`, with one constructor per kind of
Python exception that can escape the translated code.
-/

namespace RSB

/-- The exceptions the source can raise: `error.general` (user-visible),
`error.internal`, `error.exit` (clean exit after `help()` printed the usage
lines carried in the constructor), and the built-in Python exceptions
`KeyError`, `ValueError`, `TypeError` and `NameError` that the translated
code can raise. -/
inductive Err where
  | general (msg : String)
  | internal (msg : String)
  | exit (output : List String)
  | keyError (key : String)
  | valueError (msg : String)
  | typeError (msg : String)
  | nameError (nm : String)
  deriving Repr, DecidableEq

/-- Modelled from the spec: a ConfigValue stored by the macros collaborator
(the `macros` module is not in src/) is a (kind, attribute, value) triple;
`options.py` stores either such triples or plain strings into it. -/
structure MacroVal where
  kind : String
  attr : String
  value : String
  deriving Repr, DecidableEq

/-- A string-keyed mapping (Python dict): `none` means the key is absent. -/
def Store (α : Type) : Type := String → Option α

/-- Dict assignment `d[k] = v`. -/
def sset {α : Type} (d : Store α) (k : String) (v : α) : Store α :=
  fun q => if q = k then some v else d q

/-- The empty dict. -/
def semp {α : Type} : Store α := fun _ => none

/-- Modelled from the spec: the macros collaborator wraps a plain string
assignment `defaults[k] = s` as the triple `('none', 'none', s)`. -/
def msetStr (d : Store MacroVal) (k s : String) : Store MacroVal :=
  sset d k ⟨"none", "none", s⟩

/-- Modelled from the spec: the macros collaborator's `__getitem__` returns
the value component of the stored triple; an absent key is a `KeyError`,
reported by callers. -/
def mget (d : Store MacroVal) (k : String) : Option String :=
  (d k).map MacroVal.value

/-- Whether the first list is a prefix of the second (Python
`startswith`), written out so the kernel can evaluate it. -/
def lpre : List Char → List Char → Bool
  | [], _ => true
  | _ :: _, [] => false
  | c :: p, d :: s => c = d && lpre p s

/-- Python `s.startswith(p)`. -/
def pyStartsWith (s p : String) : Bool := lpre p.data s.data

/-- Split a character list on every occurrence of `c` (Python
`s.split(c)`): the empty string yields one empty piece. -/
def splitOnCh (c : Char) : List Char → List (List Char)
  | [] => [[]]
  | d :: rest =>
    let r := splitOnCh c rest
    if d = c then [] :: r
    else
      match r with
      | [] => [[d]]
      | x :: xs => (d :: x) :: xs

/-- Python `s.split(c)` on a string. -/
def pySplitChar (c : Char) (s : String) : List String :=
  (splitOnCh c s.data).map String.mk

/-- Interleave `c` between the pieces (Python `c.join`). -/
def intercalateCh (c : Char) : List (List Char) → List Char
  | [] => []
  | [x] => x
  | x :: y :: xs => x ++ c :: intercalateCh c (y :: xs)

/-- Python `c.join(parts)`. -/
def pyJoin (c : Char) (parts : List String) : String :=
  ⟨intercalateCh c (parts.map String.data)⟩

/-- Python slicing `s[n:]`. -/
def pyDrop (n : Nat) (s : String) : String := ⟨s.data.drop n⟩

/-- The whitespace characters Python's `int`/`float` strip. -/
def isSpaceCh (c : Char) : Bool :=
  c = ' ' || c = '\t' || c = '\n' || c = '\r' || c = '\x0b' || c = '\x0c'

/-- Python `s.strip()` as a character list. -/
def pyStrip (s : String) : List Char :=
  ((s.data.dropWhile isSpaceCh).reverse.dropWhile isSpaceCh).reverse

/-- Value of a decimal digit list, most significant first (0 when empty). -/
def digitsVal (cs : List Char) : Nat :=
  cs.foldl (fun a c => a * 10 + (c.toNat - 48)) 0

/-- Whether `cs` is a nonempty run of decimal digits. -/
def allDigits (cs : List Char) : Bool :=
  !cs.isEmpty && cs.all Char.isDigit

/-- Strip one leading sign, returning the sign and the rest. -/
def pySign (cs : List Char) : Int × List Char :=
  match cs with
  | '-' :: rest => (-1, rest)
  | '+' :: rest => (1, rest)
  | _ => (1, cs)

/-- Python `int(s)` on a string: optional surrounding whitespace, optional
sign, then decimal digits; `none` models the `ValueError` raise.
(Non-decimal and long-literal forms are not modelled; no call site in the
translated code uses them.) -/
def pyParseInt (s : String) : Option Int :=
  let (sg, ds) := pySign (pyStrip s)
  if allDigits ds then some (sg * (digitsVal ds : Int)) else none

/-- Python `float(s)` on a string, modelled for the decimal forms
`d`, `d.`, `.d`, `d.d` with an optional sign (exponent and infinity forms
are not modelled; no call site in the translated code uses them). The exact
value is kept as a rational. -/
def pyParseFloat (s : String) : Option ℚ :=
  let (sg, ds) := pySign (pyStrip s)
  let ip := ds.takeWhile (fun c => c ≠ '.')
  match ds.dropWhile (fun c => c ≠ '.') with
  | [] => if allDigits ip then some (mkRat (sg * (digitsVal ip : Int)) 1) else none
  | _ :: fp =>
    if ip.isEmpty && fp.isEmpty then none
    else if ip.all Char.isDigit && fp.all Char.isDigit then
      some (mkRat (sg * ((digitsVal ip * 10 ^ fp.length + digitsVal fp : Nat) : Int))
              (10 ^ fp.length))
    else none

/-- Python `'%d' % q` on a float value: truncation toward zero. -/
def pyTrunc (q : ℚ) : Int := Int.tdiv q.num (q.den : Int)

/-- The handler variants of the long-option dispatch table. -/
inductive Handler where
  | hstring
  | hpath
  | hjobs
  | hbool
  | htriplets
  | hhelp
  deriving Repr, DecidableEq

/-- One row of `command_line._long_opts`: macro key (None for `--help`),
handler, whether a value is required, default, preseed flag. -/
structure LongOpt where
  mac : Option String
  handler : Handler
  param : Bool
  dflt : Option String
  init : Bool
  deriving Repr, DecidableEq

/-- `command_line._long_opts`, transcribed row by row from the source. -/
def long_opts : List (String × LongOpt) :=
  [ ("--prefix",         ⟨some "_prefix",         .hpath,     true,  none,       false⟩),
    ("--topdir",         ⟨some "_topdir",         .hpath,     true,  none,       false⟩),
    ("--configdir",      ⟨some "_configdir",      .hpath,     true,  none,       false⟩),
    ("--builddir",       ⟨some "_builddir",       .hpath,     true,  none,       false⟩),
    ("--sourcedir",      ⟨some "_sourcedir",      .hpath,     true,  none,       false⟩),
    ("--tmppath",        ⟨some "_tmppath",        .hpath,     true,  none,       false⟩),
    ("--jobs",           ⟨some "_jobs",           .hjobs,     true,  some "max", true⟩),
    ("--log",            ⟨some "_logfile",        .hstring,   true,  none,       false⟩),
    ("--url",            ⟨some "_url_base",       .hstring,   true,  none,       false⟩),
    ("--targetcflags",   ⟨some "_targetcflags",   .hstring,   true,  none,       false⟩),
    ("--targetcxxflags", ⟨some "_targetcxxflags", .hstring,   true,  none,       false⟩),
    ("--libstdcxxflags", ⟨some "_libstdcxxflags", .hstring,   true,  none,       false⟩),
    ("--force",          ⟨some "_force",          .hbool,     false, some "0",   true⟩),
    ("--quiet",          ⟨some "_quiet",          .hbool,     false, some "0",   true⟩),
    ("--trace",          ⟨some "_trace",          .hbool,     false, some "0",   true⟩),
    ("--dry-run",        ⟨some "_dry_run",        .hbool,     false, some "0",   true⟩),
    ("--warn-all",       ⟨some "_warn_all",       .hbool,     false, some "0",   true⟩),
    ("--no-clean",       ⟨some "_no_clean",       .hbool,     false, some "0",   true⟩),
    ("--keep-going",     ⟨some "_keep_going",     .hbool,     false, some "0",   true⟩),
    ("--always-clean",   ⟨some "_always_clean",   .hbool,     false, some "0",   true⟩),
    ("--host",           ⟨some "_host",           .htriplets, true,  none,       false⟩),
    ("--build",          ⟨some "_build",          .htriplets, true,  none,       false⟩),
    ("--target",         ⟨some "_target",         .htriplets, true,  none,       false⟩),
    ("--help",           ⟨none,                   .hhelp,     false, none,       false⟩) ]

/-- Look a token up in `_long_opts`. -/
def lookupLO (k : String) : Option LongOpt :=
  (long_opts.find? (fun p => p.1 == k)).map Prod.snd

/-- The state `command_line` mutates: `self.opts` (option name to current
value), the positional parameter list `self.opts['params']`, and
`self.defaults` (the macros object). -/
structure CmdState where
  opts : Store (Option String)
  params : List String
  defaults : Store MacroVal

/-- The collaborators `command_line` consults, passed as parameters:
`path.shell` normalization, the `config.sub` canonicalizer (`none` models
a nonzero exit code, which keeps the raw string), the command name used in
the usage header, and the caller-supplied extra usage entries. -/
structure Env where
  pathShell : String → String
  canon : String → Option String
  cmdName : String
  optargs : List (String × String)

/-- `command_line.__init__`: `self.opts = {'params': []}`, then every long
option's name (with `--` stripped) is seeded into `opts` with its table
default, and every preseeded row writes `('none', 'none', default)` into
`defaults` (the macros object built from the defaults file, here `base`). -/
def initState (base : Store MacroVal) : CmdState :=
  { opts := long_opts.foldl (fun o p => sset o (pyDrop 2 p.1) p.2.dflt) semp,
    params := [],
    defaults := long_opts.foldl
      (fun d p =>
        if p.2.init then
          sset d (p.2.mac.getD "") ⟨"none", "none", (p.2.dflt.getD "")⟩
        else d) base }

/-- `command_line._lo_string`. -/
def lo_string (st : CmdState) (opt mac : String) (value : Option String) :
    Except Err CmdState :=
  match value with
  | none => .error (.general ("option requires a value: " ++ opt))
  | some v =>
    .ok { st with opts := sset st.opts (pyDrop 2 opt) (some v),
                  defaults := msetStr st.defaults mac v }

/-- `command_line._lo_path`: like `_lo_string` after `path.shell`. -/
def lo_path (env : Env) (st : CmdState) (opt mac : String)
    (value : Option String) : Except Err CmdState :=
  match value with
  | none => .error (.general ("option requires a path: " ++ opt))
  | some v0 =>
    let v := env.pathShell v0
    .ok { st with opts := sset st.opts (pyDrop 2 opt) (some v),
                  defaults := msetStr st.defaults mac v }

/-- `command_line._lo_jobs`: validate the token, then store it verbatim. -/
def lo_jobs (st : CmdState) (opt mac : String) (value : Option String) :
    Except Err CmdState :=
  match value with
  | none => .error (.general ("option requires a value: " ++ opt))
  | some v =>
    if v == "max" || v == "none" || v == "half"
       || (pyParseInt v).isSome || (pyParseFloat v).isSome then
      .ok { st with defaults := msetStr st.defaults mac v,
                    opts := sset st.opts (pyDrop 2 opt) (some v) }
    else .error (.general ("invalid jobs option: " ++ v))

/-- `command_line._lo_bool`. -/
def lo_bool (st : CmdState) (opt mac : String) (value : Option String) :
    Except Err CmdState :=
  match value with
  | some _ => .error (.general ("option does not take a value: " ++ opt))
  | none =>
    .ok { st with opts := sset st.opts (pyDrop 2 opt) (some "1"),
                  defaults := msetStr st.defaults mac "1" }

/-- Split a string at its first dash, as the two `value.find('-')` slices
do in `_lo_triplets`; `none` when there is no dash. -/
def splitFirstDash (s : String) : Option (String × String) :=
  match splitOnCh '-' s.data with
  | [] => none
  | [_] => none
  | x :: rest => some (⟨x⟩, ⟨intercalateCh '-' rest⟩)

/-- The decomposition loop body of `_lo_triplets`: arch is the piece before
the first dash (empty when there is none), vendor the piece before the next
dash, and the remainder (dashes included) becomes the os segment when it is
nonempty. -/
def tripletDecomp (v : String) : String × String × String :=
  let p1 :=
    match splitFirstDash v with
    | some (x, r) => (x, r)
    | none => ("", v)
  let p2 :=
    match splitFirstDash p1.2 with
    | some (x, r) => (x, r)
    | none => ("", p1.2)
  (p1.1, p2.1, if p2.2.data.length ≠ 0 then p2.2 else "")

/-- `command_line._lo_triplets`: advisory canonicalization through
`config.sub` (a failure keeps the raw string), store the triplet, then
derive `_cpu`, `_arch`, `_vendor`, `_os` by splitting on the first two
dashes. A `none` value would make the source concatenate `None` into the
shell command, a `TypeError` (unreachable from `process`). -/
def lo_triplets (env : Env) (st : CmdState) (opt mac : String)
    (value : Option String) : Except Err CmdState :=
  match value with
  | none => .error (.typeError "cannot concatenate str and NoneType")
  | some v0 =>
    let v := (env.canon v0).getD v0
    let d := tripletDecomp v
    .ok { st with opts := sset st.opts (pyDrop 2 opt) (some v),
                  defaults :=
                    msetStr (msetStr (msetStr (msetStr
                      (sset st.defaults mac ⟨"triplet", "none", v⟩)
                      (mac ++ "_cpu") d.1)
                      (mac ++ "_arch") d.1)
                      (mac ++ "_vendor") d.2.1)
                      (mac ++ "_os") d.2.2 }

/-- The lines `command_line.help` prints, in order, including the
caller-supplied `optargs` entries formatted with `'%-22s : %s'`. -/
def usage_lines (cmdName : String) (optargs : List (String × String)) :
    List String :=
  [ cmdName ++ ": [options] [args]",
    "RTEMS Source Builder, an RTEMS Tools Project (c) 2012-2013 Chris Johns",
    "Options and arguments:",
    "--force                : Force the build to proceed",
    "--quiet                : Quiet output (not used)",
    "--trace                : Trace the execution",
    "--dry-run              : Do everything but actually run the build",
    "--warn-all             : Generate warnings",
    "--no-clean             : Do not clean up the build tree",
    "--always-clean         : Always clean the build tree, even with an error",
    "--jobs                 : Run with specified number of jobs, default: num CPUs.",
    "--host                 : Set the host triplet",
    "--build                : Set the build triplet",
    "--target               : Set the target triplet",
    "--prefix path          : Tools build prefix, ie where they are installed",
    "--topdir path          : Top of the build tree, default is $PWD",
    "--configdir path       : Path to the configuration directory, default: ./config",
    "--builddir path        : Path to the build directory, default: ./build",
    "--sourcedir path       : Path to the source directory, default: ./source",
    "--tmppath path         : Path to the temp directory, default: ./tmp",
    "--log file             : Log file where all build out is written too",
    "--url url              : URL to look for source",
    "--targetcflags flags   : List of C flags for the target code",
    "--targetcxxflags flags : List of C++ flags for the target code",
    "--libstdcxxflags flags : List of C++ flags to build the target libstdc++ code",
    "--with-<label>         : Add the --with-<label> to the build",
    "--without-<label>      : Add the --without-<label> to the build" ]
  ++ optargs.map (fun a =>
       (a.1 ++ String.mk (List.replicate (22 - a.1.length) ' ')) ++ " : " ++ a.2)

/-- Dispatch `long_opt[1](lo, long_opt[0], value)`; the help handler prints
the usage lines and raises `error.exit`. -/
def dispatch (env : Env) (lo : String) (l : LongOpt) (value : Option String)
    (st : CmdState) : Except Err CmdState :=
  match l.handler with
  | .hstring => lo_string st lo (l.mac.getD "") value
  | .hpath => lo_path env st lo (l.mac.getD "") value
  | .hjobs => lo_jobs st lo (l.mac.getD "") value
  | .hbool => lo_bool st lo (l.mac.getD "") value
  | .htriplets => lo_triplets env st lo (l.mac.getD "") value
  | .hhelp => .error (.exit (usage_lines env.cmdName env.optargs))

/-- One iteration of the `command_line.process` loop on token `a`.
Tokens are split on the first `=`. A recognized value-taking option
without `=` makes the source evaluate `len(args)` where no local or global
`args` exists, an unconditional `NameError` (the code meant `self.args`),
so the "consume the next token" branch is unreachable. An unrecognized
`--` token is skipped; any other token is appended to `params`. -/
def pstep (env : Env) (a : String) (st : CmdState) : Except Err CmdState :=
  if a = "-?" then .error (.exit (usage_lines env.cmdName env.optargs))
  else if pyStartsWith a "--" then
    let los := pySplitChar '=' a
    match lookupLO (los.headD "") with
    | some l =>
      if los.length = 1 then
        if l.param then .error (.nameError "args")
        else dispatch env (los.headD "") l none st
      else
        dispatch env (los.headD "") l (some (pyJoin '=' (los.drop 1))) st
    | none => .ok st
  else .ok { st with params := st.params ++ [a] }

/-- `command_line.process`: run the loop body over the argument tokens in
order; the first raise aborts the loop. -/
def process (env : Env) : List String → CmdState → Except Err CmdState
  | [], st => .ok st
  | a :: rest, st =>
    match pstep env a st with
    | .ok st1 => process env rest st1
    | .error e => .error e

/-- `command_line.jobs`, after the `int(cpus)` conversion: resolve the
stored jobs token against the CPU count. Python 2 `cpus / 2` on ints is
floor division. The source ends with `if cpus <= 0: cpu = 1`, which
assigns a variable `cpu` that is never read, so the returned value is the
unclamped one. -/
def jobsCalc (j : Option String) (cpus0 : Int) : Except Err ℚ :=
  match j with
  | none => .error (.internal "bad jobs option: None")
  | some s =>
    if s = "none" then .ok 0
    else if s = "max" then .ok (cpus0 : ℚ)
    else if s = "half" then .ok ((Int.fdiv cpus0 2 : Int) : ℚ)
    else
      match pyParseInt s with
      | some i => .ok (i : ℚ)
      | none =>
        match pyParseFloat s with
        | some f => .ok (f * (cpus0 : ℚ))
        | none => .error (.internal ("bad jobs option: " ++ s))

/-- `command_line.jobs(cpus)` as called with a macro value string:
`int(cpus)` first (a `ValueError` escapes), then `self.opts['jobs']`. -/
def jobs_m (st : CmdState) (cpus : String) : Except Err ℚ :=
  match pyParseInt cpus with
  | none => .error (.valueError cpus)
  | some c =>
    match st.opts "jobs" with
    | none => .error (.keyError "jobs")
    | some j => jobsCalc j c

/-- `command_line.post_process`: require `_host` different from `nil`,
require `_ncpus`, resolve parallelism, store `_smp_mflags`. -/
def post_process (st : CmdState) : Except Err CmdState :=
  match mget st.defaults "_host", mget st.defaults "nil" with
  | none, _ => .error (.keyError "_host")
  | _, none => .error (.keyError "nil")
  | some hv, some nv =>
    if hv = nv then .error (.general "host not set")
    else if (st.defaults "_ncpus").isNone then
      .error (.general "host number of CPUs not set")
    else
      match mget st.defaults "_ncpus" with
      | none => .error (.keyError "_ncpus")
      | some cs =>
        match jobs_m st cs with
        | .error e => .error e
        | .ok q =>
          if 1 < q then
            let flag := "-j " ++ toString (pyTrunc q)
            .ok { st with defaults := msetStr st.defaults "_smp_mflags" flag }
          else
            .ok { st with defaults := msetStr st.defaults "_smp_mflags" nv }

/-- Apply a list of defaults writes in order (`for k in overrides: ...`). -/
def applyAll (ws : List (String × MacroVal)) (d : Store MacroVal) :
    Store MacroVal :=
  ws.foldl (fun d kv => sset d kv.1 kv.2) d

/-- The last value a write list assigns to `k`, if any. -/
def lastVal : List (String × MacroVal) → String → Option MacroVal
  | [], _ => none
  | kv :: ws, k =>
    match lastVal ws k with
    | some v => some v
    | none => if k = kv.1 then some kv.2 else none

/-- First-of-two choice on optional values, used to state layering. -/
def oor (a b : Option MacroVal) : Option MacroVal :=
  match a with
  | some v => some v
  | none => b

/-- The override application step of `load`. -/
def overrideState (st : CmdState) (ov : List (String × MacroVal)) : CmdState :=
  { st with defaults := applyAll ov st.defaults }

/-- `load`, up to the provenance stamping: seed the defaults
(`command_line.__init__`), apply the host overrides, parse the command
line, post-process. Any raise aborts the whole resolution. -/
def loadModel (env : Env) (base : Store MacroVal)
    (ov : List (String × MacroVal)) (cmdArgs : List String) :
    Except Err CmdState :=
  match process env cmdArgs (overrideState (initState base) ov) with
  | .error e => .error e
  | .ok st => post_process st

/-- The exit code `run` produces for each outcome: `error.exit` (help) and
normal completion exit 0, every exception exit 1 (uncaught built-in
exceptions terminate the interpreter with a nonzero status). -/
def exit_code : Except Err CmdState → Nat
  | .ok _ => 0
  | .error (.exit _) => 0
  | .error _ => 1

/-- `command_line.force` and the other flag accessors share the shape
`self.opts[name] != '0'`; a missing key would be a `KeyError`. -/
def boolOpt (st : CmdState) (k : String) : Except Err Bool :=
  match st.opts k with
  | none => .error (.keyError k)
  | some v => .ok (decide (v ≠ some "0"))

/-- `command_line.force`. -/
def force (st : CmdState) : Except Err Bool := boolOpt st "force"

/-- `command_line.dry_run`. -/
def dry_run (st : CmdState) : Except Err Bool := boolOpt st "dry-run"

/-- `command_line.quiet`. -/
def quiet (st : CmdState) : Except Err Bool := boolOpt st "quiet"

/-- `command_line.trace`. -/
def trace (st : CmdState) : Except Err Bool := boolOpt st "trace"

/-- `command_line.warn_all`. -/
def warn_all (st : CmdState) : Except Err Bool := boolOpt st "warn-all"

/-- `command_line.keep_going`. -/
def keep_going (st : CmdState) : Except Err Bool := boolOpt st "keep-going"

/-- `command_line.no_clean`. -/
def no_clean (st : CmdState) : Except Err Bool := boolOpt st "no-clean"

/-- `command_line.always_clean`. -/
def always_clean (st : CmdState) : Except Err Bool := boolOpt st "always-clean"

/-- `command_line.logfiles`: the `log` option split on commas, else
`['stdout']`; the containment test makes this total. -/
def logfiles (st : CmdState) : List String :=
  match st.opts "log" with
  | some (some s) => pySplitChar ',' s
  | _ => ["stdout"]

/-- `command_line.urls`: the `url` option split on commas, else `None`;
`self.opts['url']` on a missing key would be a `KeyError`. -/
def urls (st : CmdState) : Except Err (Option (List String)) :=
  match st.opts "url" with
  | none => .error (.keyError "url")
  | some none => .ok none
  | some (some s) => .ok (some (pySplitChar ',' s))

/-- A concrete environment for concrete runs: identity path
normalization, a canonicalizer whose child process fails (so the raw
triplet is kept), no extra usage entries. -/
def env0 : Env :=
  { pathShell := id, canon := fun _ => none, cmdName := "sb", optargs := [] }

/-- A concrete macros base holding the two entries `post_process` reads
from the defaults file: `nil` (empty) and `_host` seeded to the `nil`
value (unset). Modelled from the spec: the defaults file itself is not in
src/. -/
def base0 : Store MacroVal :=
  sset (sset semp "nil" ⟨"none", "none", ""⟩) "_host" ⟨"none", "none", ""⟩

/-- A state as `post_process` sees it after a successful parse: host set,
`_ncpus` provided by the host overrides, and a jobs token in `opts`. -/
def c6state (j : String) : CmdState :=
  let st := initState base0
  { st with opts := sset st.opts "jobs" (some j),
            defaults := sset (msetStr st.defaults "_host" "x-y-z")
                          "_ncpus" ⟨"none", "none", "8"⟩ }

/-- A state with the host triplet set but no `_ncpus` key. -/
def c7state : CmdState :=
  { initState base0 with
      defaults := msetStr (initState base0).defaults "_host" "x" }

/-- The parse result for the dash-free triplet `--host=x`. -/
def c3xState : CmdState :=
  (process env0 ["--host=x"] (initState base0)).toOption.getD (initState base0)

/-- The parse result for `--host=i386-pc-linux-gnu`. -/
def c3aState : CmdState :=
  (process env0 ["--host=i386-pc-linux-gnu"] (initState base0)).toOption.getD
    (initState base0)

/-- The parse result for `--build=arm-none-eabi`. -/
def c3bState : CmdState :=
  (process env0 ["--build=arm-none-eabi"] (initState base0)).toOption.getD
    (initState base0)

/-- A one-entry host override mapping supplying the CPU count. -/
def ov0 : List (String × MacroVal) := [("_ncpus", ⟨"none", "none", "4"⟩)]

/-- The state after seeding, applying `ov0` and parsing `--log=x`. -/
def c2res : CmdState :=
  (process env0 ["--log=x"] (overrideState (initState base0) ov0)).toOption.getD
    (initState base0)

/-- The parse result for `foo --bogus bar` (positional, unrecognized,
positional). -/
def c9res : CmdState :=
  (process env0 ["foo", "--bogus", "bar"] (initState base0)).toOption.getD
    (initState base0)

/-- The post-processing result for the jobs-token-4 state. -/
def c6res4 : CmdState :=
  (post_process (c6state "4")).toOption.getD (initState base0)

/-- Looking a key up after a write list is applied yields the last write to
that key when there is one, and the underlying value otherwise. -/
theorem applyAll_lookup (ws : List (String × MacroVal)) (d : Store MacroVal)
    (k : String) : applyAll ws d k = oor (lastVal ws k) (d k) := by
  induction ws generalizing d with
  | nil => rfl
  | cons kv ws ih =>
    show applyAll ws (sset d kv.1 kv.2) k = _
    rw [ih]
    cases h : lastVal ws k with
    | some v => simp [lastVal, h, oor]
    | none =>
      simp only [lastVal, h, oor, sset]
      by_cases hk : k = kv.1 <;> simp [hk]

/-- A successful handler call leaves `params` unchanged and changes
`defaults` only by a sequence of key writes. -/
theorem dispatch_ok (env : Env) (lo : String) (l : LongOpt)
    (value : Option String) (st st' : CmdState)
    (h : dispatch env lo l value st = .ok st') :
    st'.params = st.params ∧ ∃ ws, st'.defaults = applyAll ws st.defaults := by
  rcases l with ⟨mac, hd, par, df, ini⟩
  cases hd with
  | hstring =>
    cases value with
    | none => simp [dispatch, lo_string] at h
    | some v =>
      simp only [dispatch, lo_string] at h
      injection h with h
      subst h
      exact ⟨rfl, [(mac.getD "", ⟨"none", "none", v⟩)], rfl⟩
  | hpath =>
    cases value with
    | none => simp [dispatch, lo_path] at h
    | some v =>
      simp only [dispatch, lo_path] at h
      injection h with h
      subst h
      exact ⟨rfl, [(mac.getD "", ⟨"none", "none", env.pathShell v⟩)], rfl⟩
  | hjobs =>
    cases value with
    | none => simp [dispatch, lo_jobs] at h
    | some v =>
      simp only [dispatch, lo_jobs] at h
      split at h
      · injection h with h
        subst h
        exact ⟨rfl, [(mac.getD "", ⟨"none", "none", v⟩)], rfl⟩
      · simp at h
  | hbool =>
    cases value with
    | some v => simp [dispatch, lo_bool] at h
    | none =>
      simp only [dispatch, lo_bool] at h
      injection h with h
      subst h
      exact ⟨rfl, [(mac.getD "", ⟨"none", "none", "1"⟩)], rfl⟩
  | htriplets =>
    cases value with
    | none => simp [dispatch, lo_triplets] at h
    | some v0 =>
      simp only [dispatch, lo_triplets] at h
      injection h with h
      subst h
      refine ⟨rfl, ?_⟩
      refine ⟨[(mac.getD "",
                 ⟨"triplet", "none", (env.canon v0).getD v0⟩),
               (mac.getD "" ++ "_cpu",
                 ⟨"none", "none", (tripletDecomp ((env.canon v0).getD v0)).1⟩),
               (mac.getD "" ++ "_arch",
                 ⟨"none", "none", (tripletDecomp ((env.canon v0).getD v0)).1⟩),
               (mac.getD "" ++ "_vendor",
                 ⟨"none", "none", (tripletDecomp ((env.canon v0).getD v0)).2.1⟩),
               (mac.getD "" ++ "_os",
                 ⟨"none", "none", (tripletDecomp ((env.canon v0).getD v0)).2.2⟩)],
              rfl⟩
  | hhelp => simp [dispatch] at h

/-- A successful loop iteration appends positional tokens to `params` and
changes `defaults` only by a sequence of key writes. -/
theorem pstep_ok (env : Env) (a : String) (st st' : CmdState)
    (h : pstep env a st = .ok st') :
    st'.params = st.params ++ (if pyStartsWith a "--" then [] else [a]) ∧
    ∃ ws, st'.defaults = applyAll ws st.defaults := by
  by_cases hq : a = "-?"
  · simp [pstep, hq] at h
  · by_cases hd : pyStartsWith a "--"
    · simp only [pstep, if_neg hq, hd, if_true] at h
      cases hlo : lookupLO ((pySplitChar '=' a).headD "") with
      | none =>
        simp only [hlo] at h
        injection h with h
        subst h
        exact ⟨by simp [hd], [], rfl⟩
      | some l =>
        simp only [hlo] at h
        by_cases hlen : (pySplitChar '=' a).length = 1
        · rw [if_pos hlen] at h
          by_cases hp : l.param
          · simp [hp] at h
          · rw [if_neg hp] at h
            obtain ⟨h1, hw⟩ := dispatch_ok env _ l none st st' h
            exact ⟨by simp [hd, h1], hw⟩
        · rw [if_neg hlen] at h
          obtain ⟨h1, hw⟩ := dispatch_ok env _ l _ st st' h
          exact ⟨by simp [hd, h1], hw⟩
    · simp only [pstep, if_neg hq, hd] at h
      simp only [Bool.false_eq_true, if_false] at h
      injection h with h
      subst h
      refine ⟨by simp [hd], [], rfl⟩

/-- A successful parse appends exactly the non-`--` tokens to `params`, in
order, and changes `defaults` only by a sequence of key writes. -/
theorem process_ok (env : Env) (args : List String) : ∀ (st st' : CmdState),
    process env args st = .ok st' →
    st'.params = st.params ++ args.filter (fun a => !(pyStartsWith a "--")) ∧
    ∃ ws, st'.defaults = applyAll ws st.defaults := by
  induction args with
  | nil =>
    intro st st' h
    injection h with h
    subst h
    exact ⟨by simp, [], rfl⟩
  | cons a rest ih =>
    intro st st' h
    simp only [process] at h
    cases hp : pstep env a st with
    | error e => rw [hp] at h; simp at h
    | ok st1 =>
      rw [hp] at h
      obtain ⟨h1, ws1, hw1⟩ := pstep_ok env a st st1 hp
      obtain ⟨h2, ws2, hw2⟩ := ih st1 st' h
      refine ⟨?_, ws1 ++ ws2, ?_⟩
      · rw [h2, h1]
        by_cases hd : pyStartsWith a "--" <;>
          simp [List.filter_cons, hd]
      · rw [hw2, hw1]
        show List.foldl _ _ _ = List.foldl _ _ _
        rw [List.foldl_append]
        rfl

/-- Parsing a concatenation runs the two halves in sequence. -/
theorem process_append (env : Env) (xs ys : List String) : ∀ st : CmdState,
    process env (xs ++ ys) st =
      match process env xs st with
      | .ok st1 => process env ys st1
      | .error e => .error e := by
  induction xs with
  | nil => intro st; rfl
  | cons a xs ih =>
    intro st
    show (match pstep env a st with
          | .ok st1 => process env (xs ++ ys) st1
          | .error e => .error e) = _
    cases hp : pstep env a st with
    | ok st1 => simp only [process, hp, ih st1]
    | error e => simp only [process, hp]

/-- An unrecognized long option is skipped without any effect. -/
theorem pstep_unrec (env : Env) (a : String) (st : CmdState)
    (hd : pyStartsWith a "--" = true)
    (hl : lookupLO ((pySplitChar '=' a).headD "") = none) :
    pstep env a st = .ok st := by
  have hq : ¬ a = "-?" := by
    intro he
    subst he
    exact absurd hd (by decide)
  have hl' : lookupLO ((pySplitChar '=' a).head?.getD "") = none := by
    rw [← List.headD_eq_head?]
    exact hl
  simp [pstep, hq, hd, hl, hl']

/-- A vector made only of unrecognized long options parses successfully
and leaves the whole state untouched. -/
theorem process_unrec (env : Env) (args : List String) : ∀ st : CmdState,
    (∀ a ∈ args, pyStartsWith a "--" = true ∧
        lookupLO ((pySplitChar '=' a).headD "") = none) →
    process env args st = .ok st := by
  induction args with
  | nil => intro st _; rfl
  | cons a rest ih =>
    intro st h
    obtain ⟨hd, hl⟩ := h a (List.mem_cons_self a rest)
    simp only [process, pstep_unrec env a st hd hl]
    exact ih st (fun b hb => h b (List.mem_cons_of_mem a hb))

/-- C1: the `--opt=value` form stores the value in `opts` and `defaults`,
but the separate-token form `--opt value` raises a `NameError` (the loop
evaluates `len(args)` where only `self.args` exists) and exits with status
1, so the two forms do not produce identical stored configuration. -/
theorem c1_equals_vs_separate_token :
    process env0 ["--log=out.txt"] (initState base0) =
      .ok { initState base0 with
              opts := sset (initState base0).opts "log" (some "out.txt"),
              defaults := msetStr (initState base0).defaults "_logfile" "out.txt" } ∧
    process env0 ["--log", "out.txt"] (initState base0) =
      .error (.nameError "args") ∧
    exit_code (process env0 ["--log", "out.txt"] (initState base0)) = 1 :=
  ⟨rfl, rfl, rfl⟩

/-- C2: after seeding, host overrides and a successful command-line parse,
every key resolves to the last command-line write when one exists, else to
the last host-override entry when one exists, else to the seeded default;
keys are whole values, never partially merged. -/
theorem c2_layered_resolution (env : Env) (base : Store MacroVal)
    (ov : List (String × MacroVal)) (args : List String) (st' : CmdState)
    (h : process env args (overrideState (initState base) ov) = .ok st') :
    ∃ ws : List (String × MacroVal), ∀ k : String,
      st'.defaults k =
        oor (lastVal ws k) (oor (lastVal ov k) ((initState base).defaults k)) := by
  obtain ⟨-, ws, hw⟩ := process_ok env args _ st' h
  refine ⟨ws, fun k => ?_⟩
  rw [hw, applyAll_lookup]
  have hov : (overrideState (initState base) ov).defaults k =
      oor (lastVal ov k) ((initState base).defaults k) := applyAll_lookup ov _ k
  rw [hov]

/-- C2 witness: the layered-resolution theorem applied to the override
list `ov0` and the command line `--log=x`. -/
theorem c2_layered_resolution_witness :
    ∃ ws : List (String × MacroVal), ∀ k : String,
      c2res.defaults k =
        oor (lastVal ws k) (oor (lastVal ov0 k) ((initState base0).defaults k)) :=
  c2_layered_resolution env0 base0 ov0 ["--log=x"] c2res rfl

/-- C3 counterexample: parsing the dash-free triplet `--host=x` stores an
empty arch segment (`_host_cpu` and `_host_arch` both empty) and stores
`x` as the os segment, contradicting the claimed arch=`x`, os=empty. -/
theorem c3_dash_free_cex :
    process env0 ["--host=x"] (initState base0) = .ok c3xState ∧
    mget c3xState.defaults "_host_cpu" = some "" ∧
    mget c3xState.defaults "_host_arch" = some "" ∧
    mget c3xState.defaults "_host_vendor" = some "" ∧
    mget c3xState.defaults "_host_os" = some "x" ∧
    ("" : String) ≠ "x" :=
  ⟨rfl, rfl, rfl, rfl, rfl, by decide⟩

/-- C3 (amended): the decomposition splits only on the first two dashes,
storing the four derived keys; `i386-pc-linux-gnu` gives arch `i386`,
vendor `pc`, os `linux-gnu`; `arm-none-eabi` gives `arm`, `none`, `eabi`;
the dash-free `x` gives arch empty, vendor empty and os `x`. -/
theorem c3_triplet_decomposition :
    process env0 ["--host=i386-pc-linux-gnu"] (initState base0) = .ok c3aState ∧
    c3aState.defaults "_host" = some ⟨"triplet", "none", "i386-pc-linux-gnu"⟩ ∧
    mget c3aState.defaults "_host_cpu" = some "i386" ∧
    mget c3aState.defaults "_host_arch" = some "i386" ∧
    mget c3aState.defaults "_host_vendor" = some "pc" ∧
    mget c3aState.defaults "_host_os" = some "linux-gnu" ∧
    process env0 ["--build=arm-none-eabi"] (initState base0) = .ok c3bState ∧
    c3bState.defaults "_build" = some ⟨"triplet", "none", "arm-none-eabi"⟩ ∧
    mget c3bState.defaults "_build_cpu" = some "arm" ∧
    mget c3bState.defaults "_build_arch" = some "arm" ∧
    mget c3bState.defaults "_build_vendor" = some "none" ∧
    mget c3bState.defaults "_build_os" = some "eabi" ∧
    mget c3xState.defaults "_host_cpu" = some "" ∧
    mget c3xState.defaults "_host_vendor" = some "" ∧
    mget c3xState.defaults "_host_os" = some "x" ∧
    tripletDecomp "i386-pc-linux-gnu" = ("i386", "pc", "linux-gnu") ∧
    tripletDecomp "arm-none-eabi" = ("arm", "none", "eabi") ∧
    tripletDecomp "x" = ("", "", "x") :=
  ⟨rfl, rfl, rfl, rfl, rfl, rfl, rfl, rfl, rfl, rfl, rfl, rfl, rfl, rfl, rfl,
   rfl, rfl, rfl⟩

/-- C4: with 8 CPUs the jobs resolver maps `max` to 8, `half` to 4, `none`
to 0, `3` to 3 and `1.5` to 12, and the command-line handler rejects
`xyz` with the user-visible invalid-argument error and exit status 1. -/
theorem c4_jobs_resolution :
    jobsCalc (some "max") 8 = .ok 8 ∧
    jobsCalc (some "half") 8 = .ok 4 ∧
    jobsCalc (some "none") 8 = .ok 0 ∧
    jobsCalc (some "3") 8 = .ok 3 ∧
    jobsCalc (some "1.5") 8 = .ok 12 ∧
    process env0 ["--jobs=xyz"] (initState base0) =
      .error (.general "invalid jobs option: xyz") ∧
    exit_code (process env0 ["--jobs=xyz"] (initState base0)) = 1 := by
  refine ⟨rfl, rfl, rfl, rfl, ?_, rfl, rfl⟩
  rw [show jobsCalc (some "1.5") 8 = .ok (mkRat 15 10 * ((8 : Int) : ℚ)) from rfl]
  norm_num [Rat.mkRat_eq_div]

/-- C5: the clamp at the end of `jobs` assigns the dead variable `cpu`, so
resolving the policy `none` with 8 CPUs returns 0, strictly below the
claimed minimum of 1. -/
theorem c5_jobs_clamp_dead :
    jobsCalc (some "none") 8 = .ok 0 ∧ (0 : ℚ) < 1 :=
  ⟨rfl, by norm_num⟩

/-- C6: after successful post-validation `_smp_mflags` holds `-j n`
exactly when the resolved parallelism exceeds 1 and the `nil` value
otherwise; resolved jobs 4 yields `-j 4` and resolved jobs 1 yields the
empty flag. -/
theorem c6_smp_mflags :
    (∀ st st' : CmdState, post_process st = .ok st' →
      ∃ q : ℚ, ∃ nv cs : String,
        mget st.defaults "nil" = some nv ∧
        mget st.defaults "_ncpus" = some cs ∧
        jobs_m st cs = .ok q ∧
        mget st'.defaults "_smp_mflags" =
          some (if 1 < q then "-j " ++ toString (pyTrunc q) else nv)) ∧
    Except.map (fun s => mget s.defaults "_smp_mflags")
        (post_process (c6state "4")) = .ok (some "-j 4") ∧
    Except.map (fun s => mget s.defaults "_smp_mflags")
        (post_process (c6state "1")) = .ok (some "") := by
  refine ⟨?_, rfl, rfl⟩
  intro st st' h
  unfold post_process at h
  cases h1 : mget st.defaults "_host" with
  | none => rw [h1] at h; exact absurd h (by simp)
  | some hv =>
    cases h2 : mget st.defaults "nil" with
    | none => rw [h1, h2] at h; exact absurd h (by simp)
    | some nv =>
      rw [h1, h2] at h
      simp only [] at h
      by_cases h3 : hv = nv
      · rw [if_pos h3] at h
        exact absurd h (by simp)
      · rw [if_neg h3] at h
        cases h5 : mget st.defaults "_ncpus" with
        | none =>
          have h4 : (st.defaults "_ncpus").isNone = true := by
            cases hdd : st.defaults "_ncpus" with
            | none => rfl
            | some m => rw [mget, hdd] at h5; simp at h5
          rw [if_pos h4] at h
          exact absurd h (by simp)
        | some cs =>
          have h4 : ¬ (st.defaults "_ncpus").isNone = true := by
            cases hdd : st.defaults "_ncpus" with
            | none => rw [mget, hdd] at h5; simp at h5
            | some m => simp
          rw [if_neg h4, h5] at h
          simp only [] at h
          cases h6 : jobs_m st cs with
          | error e => rw [h6] at h; exact absurd h (by simp)
          | ok q =>
            rw [h6] at h
            simp only [] at h
            refine ⟨q, nv, cs, rfl, rfl, h6, ?_⟩
            by_cases h7 : 1 < q
            · rw [if_pos h7] at h
              injection h with h
              subst h
              rw [if_pos h7]
              rfl
            · rw [if_neg h7] at h
              injection h with h
              subst h
              rw [if_neg h7]
              rfl

/-- C6 witness: the general `_smp_mflags` theorem applied to a state with
8 CPUs and the jobs token `4`. -/
theorem c6_smp_mflags_witness :
    ∃ q : ℚ, ∃ nv cs : String,
      mget (c6state "4").defaults "nil" = some nv ∧
      mget (c6state "4").defaults "_ncpus" = some cs ∧
      jobs_m (c6state "4") cs = .ok q ∧
      mget c6res4.defaults "_smp_mflags" =
        some (if 1 < q then "-j " ++ toString (pyTrunc q) else nv) :=
  c6_smp_mflags.1 (c6state "4") c6res4 rfl

/-- C7 counterexample: with the host triplet set and no `_ncpus` key,
post-validation fails with the message `host number of CPUs not set`, not
the claimed message `host CPU count not set`. -/
theorem c7_message_cex :
    post_process c7state = .error (.general "host number of CPUs not set") ∧
    post_process c7state ≠ .error (.general "host CPU count not set") := by
  refine ⟨rfl, fun hc => ?_⟩
  rw [show post_process c7state =
        .error (.general "host number of CPUs not set") from rfl] at hc
  injection hc with hc
  injection hc with hc
  exact absurd hc (by decide)

/-- C7 (amended): post-validation fails with `host not set` when the host
value equals the `nil` value, and with `host number of CPUs not set` when
the host is set but the `_ncpus` key is absent; either failure aborts
resolution before any configuration is returned. -/
theorem c7_post_validation_errors :
    (∀ (st : CmdState) (v : String),
        mget st.defaults "_host" = some v → mget st.defaults "nil" = some v →
        post_process st = .error (.general "host not set")) ∧
    (∀ (st : CmdState) (hv nv : String),
        mget st.defaults "_host" = some hv → mget st.defaults "nil" = some nv →
        hv ≠ nv → st.defaults "_ncpus" = none →
        post_process st = .error (.general "host number of CPUs not set")) := by
  constructor
  · intro st v h1 h2
    unfold post_process
    rw [h1, h2]
    simp
  · intro st hv nv h1 h2 hne h3
    unfold post_process
    rw [h1, h2]
    simp only []
    rw [if_neg hne, h3]
    simp

/-- C7 witness: the post-validation error theorem applied to a state with
the host still at the `nil` value, and to a state with the host set but no
CPU count. -/
theorem c7_post_validation_errors_witness :
    post_process (initState base0) = .error (.general "host not set") ∧
    post_process c7state = .error (.general "host number of CPUs not set") :=
  ⟨c7_post_validation_errors.1 (initState base0) "" rfl rfl,
   c7_post_validation_errors.2 c7state "x" "" rfl rfl (by decide) rfl⟩

/-- C8 counterexample: `--help` is present in the vector, but the invalid
token before it aborts parsing first, so the run exits 1 with an error
message and the usage text is never produced. -/
theorem c8_help_after_error_cex :
    loadModel env0 base0 [] ["--jobs=xyz", "--help"] =
      .error (.general "invalid jobs option: xyz") ∧
    exit_code (loadModel env0 base0 [] ["--jobs=xyz", "--help"]) = 1 :=
  ⟨rfl, rfl⟩

/-- C8 (amended): when every token before it parses successfully, `--help`
(or its alias `-?`) anywhere in the vector emits the schema-driven usage
text and raises the clean-exit signal, mapped to exit code 0 and distinct
from an error, and post-validation is never reached even though the host
triplet and CPU count are unset. -/
theorem c8_help_clean_exit (env : Env) (base : Store MacroVal)
    (ov : List (String × MacroVal)) (pre rest : List String) (st1 : CmdState)
    (h : process env pre (overrideState (initState base) ov) = .ok st1) :
    loadModel env base ov (pre ++ "--help" :: rest) =
      .error (.exit (usage_lines env.cmdName env.optargs)) ∧
    exit_code (loadModel env base ov (pre ++ "--help" :: rest)) = 0 ∧
    loadModel env base ov (pre ++ "-?" :: rest) =
      .error (.exit (usage_lines env.cmdName env.optargs)) ∧
    exit_code (loadModel env base ov (pre ++ "-?" :: rest)) = 0 := by
  have hH : process env (pre ++ "--help" :: rest)
      (overrideState (initState base) ov) =
      .error (.exit (usage_lines env.cmdName env.optargs)) := by
    rw [process_append, h]
    rfl
  have hQ : process env (pre ++ "-?" :: rest)
      (overrideState (initState base) ov) =
      .error (.exit (usage_lines env.cmdName env.optargs)) := by
    rw [process_append, h]
    rfl
  refine ⟨?_, ?_, ?_, ?_⟩ <;> simp [loadModel, hH, hQ, exit_code]

/-- C8 witness: the clean-exit theorem applied with an empty prefix. -/
theorem c8_help_clean_exit_witness :
    loadModel env0 base0 [] (([] : List String) ++ "--help" :: []) =
      .error (.exit (usage_lines env0.cmdName env0.optargs)) ∧
    exit_code (loadModel env0 base0 [] (([] : List String) ++ "--help" :: [])) = 0 ∧
    loadModel env0 base0 [] (([] : List String) ++ "-?" :: []) =
      .error (.exit (usage_lines env0.cmdName env0.optargs)) ∧
    exit_code (loadModel env0 base0 [] (([] : List String) ++ "-?" :: [])) = 0 :=
  c8_help_clean_exit env0 base0 [] [] []
    (overrideState (initState base0) []) rfl

/-- C9 counterexample: the unrecognized long option `--bogus` is skipped
entirely: parsing succeeds, the state is unchanged and the positional list
stays empty instead of receiving the token as the claim states. -/
theorem c9_unrecognized_not_appended_cex :
    process env0 ["--bogus"] (initState base0) = .ok (initState base0) ∧
    (initState base0).params = [] ∧
    ¬ ((initState base0).params = ["--bogus"]) :=
  ⟨rfl, rfl, by decide⟩

/-- C9 (amended): on a successful parse the positional list receives
exactly the tokens not starting with `--`, in encountered order, while
long-prefixed tokens that match no table entry are silently skipped:
vectors made only of such tokens always parse successfully with the state
unchanged, never raising an error. -/
theorem c9_positional_and_unrecognized :
    (∀ (env : Env) (args : List String) (st st' : CmdState),
        process env args st = .ok st' →
        st'.params = st.params ++ args.filter (fun a => !(pyStartsWith a "--"))) ∧
    (∀ (env : Env) (args : List String) (st : CmdState),
        (∀ a ∈ args, pyStartsWith a "--" = true ∧
            lookupLO ((pySplitChar '=' a).headD "") = none) →
        process env args st = .ok st) :=
  ⟨fun env args st st' h => (process_ok env args st st' h).1,
   fun env args st h => process_unrec env args st h⟩

/-- C9 witness: the positional characterization on `foo --bogus bar` and
the no-error property on a vector of two unrecognized long options. -/
theorem c9_positional_and_unrecognized_witness :
    c9res.params = (initState base0).params ++
      (["foo", "--bogus", "bar"].filter (fun a => !(pyStartsWith a "--"))) ∧
    process env0 ["--bogus", "--nope=1"] (initState base0) =
      .ok (initState base0) :=
  ⟨c9_positional_and_unrecognized.1 env0 ["foo", "--bogus", "bar"]
      (initState base0) c9res rfl,
   c9_positional_and_unrecognized.2 env0 ["--bogus", "--nope=1"]
      (initState base0) (by decide)⟩

/-- C10: immediately after construction `opts` holds every long option
name (prefix stripped) at its schema default — `0` for the boolean flags,
`max` for jobs, `None` for valueless defaults — with an empty positional
list, and every accessor is well-defined on the fresh state, the boolean
ones returning false. -/
theorem c10_initial_state (base : Store MacroVal) :
    (∀ p ∈ long_opts, (initState base).opts (pyDrop 2 p.1) = some p.2.dflt) ∧
    (initState base).params = [] ∧
    force (initState base) = .ok false ∧
    dry_run (initState base) = .ok false ∧
    quiet (initState base) = .ok false ∧
    trace (initState base) = .ok false ∧
    warn_all (initState base) = .ok false ∧
    keep_going (initState base) = .ok false ∧
    no_clean (initState base) = .ok false ∧
    always_clean (initState base) = .ok false ∧
    jobs_m (initState base) "8" = .ok 8 ∧
    logfiles (initState base) = ["stdout"] ∧
    urls (initState base) = .ok none := by
  refine ⟨?_, rfl, rfl, rfl, rfl, rfl, rfl, rfl, rfl, rfl, rfl, rfl, rfl⟩
  exact fun p hp =>
    (by decide : ∀ p ∈ long_opts,
        (initState base0).opts (pyDrop 2 p.1) = some p.2.dflt) p hp

/-- C10 witness: the initial-state theorem applied to the `--force` row of
the option table. -/
theorem c10_initial_state_witness :
    (initState base0).opts (pyDrop 2 "--force") = some (some "0") :=
  (c10_initial_state base0).1
    ("--force", ⟨some "_force", .hbool, false, some "0", true⟩) (by decide)

end RSB
